import Mathlib

/-!
Formal model of the `open_api_tools` endpoint-validation pipeline:
shallow embeddings of `open_api_tools/validate/index.py`
(`prepare_request`, `file_request`, `make_request`) and of
`open_api_tools/test/test_endpoint.py` (`parse_parameters`, the
payload-generation / sampling / response-handling phases of
`test_endpoint`, and the constraint-checking phase), together with
theorems about their behaviour.

External effects are made explicit: the OpenAPI validators' outcomes
and the HTTP server's behaviour are inputs, the error-callback
invocations are returned as an ordered log, and the number of
`session.send` calls is returned as a counter.  Python's global
`random` stream is modelled by function-valued inputs covering every
possible sequence of draws.
-/

/-- JSON values, modelling the Python objects produced by `json.loads`. -/
inductive Json where
  | null
  | jbool (b : Bool)
  | num (n : Int)
  | str (s : String)
  | arr (elems : List Json)
  | obj (fields : List (String × Json))

/-- Example values that can appear in a parameter's example list:
Python `None`, booleans, strings and integers. -/
inductive Value where
  | vNone
  | vBool (b : Bool)
  | vStr (s : String)
  | vInt (n : Int)
  deriving DecidableEq

/-- A value stored in the `extra` dictionary of an `ErrorMessage`:
a status code, a raw text, a parsed JSON body, or a validator error list. -/
inductive Extra where
  | nat (n : Nat)
  | str (s : String)
  | json (j : Json)
  | errs (l : List String)

/-- `ErrorMessage` named tuple from `open_api_tools/validate/index.py`
(fields `type`, `title`, `error_status`, `url`, `extra`). -/
structure ErrorMessage where
  type : String
  title : String
  error_status : String
  url : String
  extra : List (String × Extra)

/-- `PreparedRequest` named tuple from `validate/index.py`.  The opaque
`request` and `openapi_request` member objects are not modelled: nothing
downstream inspects them beyond handing them to `file_request`. -/
structure PreparedRequest where
  type : String

/-- `FiledRequest` named tuple from `validate/index.py`: a successful
request, with fields `type` and `parsed_response` only. -/
structure FiledRequest where
  type : String
  parsed_response : Json

/-- The environment's behaviour for one request: what the OpenAPI
response validator and the HTTP server do.  `parsedJson` models the
result of `json.loads(response.text)` (`none` = `JSONDecodeError`). -/
structure ServerBehavior where
  status_code : Nat
  text : String
  parsedJson : Option Json
  responseSchemaErrors : List String

/-- Result of running (part of) the request pipeline: the returned
value, the ordered list of error-callback invocations, and the number
of network sends (`session.send` calls) performed. -/
structure RequestRun where
  result : Sum FiledRequest ErrorMessage
  callbackLog : List ErrorMessage
  networkCalls : Nat

/-- `prepare_request` (validate/index.py lines 41-88): validate the
candidate request against the OpenAPI request schema.  The request
validator's verdict is the input `requestValidatorErrors`.  On errors,
builds the `invalid_request_url` error, invokes the error callback with
it, and returns it; no network activity happens here. -/
def prepare_request (request_url : String) (requestValidatorErrors : List String) :
    Sum PreparedRequest ErrorMessage × List ErrorMessage :=
  if requestValidatorErrors.isEmpty then
    (Sum.inl { type := "success" }, [])
  else
    let error_response : ErrorMessage :=
      { type := "invalid_request_url",
        title := "Invalid Request URL",
        error_status := "Request URL does not meet the OpenAPI Schema requirements",
        url := request_url,
        extra := [("text", Extra.errs requestValidatorErrors)] }
    (Sum.inr error_response, [error_response])

/-- `file_request` (validate/index.py lines 98-182): send the prepared
request (one `session.send`, counted in `networkCalls`), then classify:
non-200 status → `invalid_response_code`; unparsable JSON body →
`invalid_response_mime_type`; response-schema errors →
`invalid_response_schema` (with the parsed body preserved under the
`parsed_response` key of `extra`); otherwise success.  Each error is
passed to the error callback exactly once and returned. -/
def file_request (request_url : String) (srv : ServerBehavior) : RequestRun :=
  if srv.status_code ≠ 200 then
    let e : ErrorMessage :=
      { type := "invalid_response_code",
        title := "Invalid Response",
        error_status := "Response status code indicates an error has occurred",
        url := request_url,
        extra := [("status_code", Extra.nat srv.status_code), ("text", Extra.str srv.text)] }
    { result := Sum.inr e, callbackLog := [e], networkCalls := 1 }
  else
    match srv.parsedJson with
    | none =>
      let e : ErrorMessage :=
        { type := "invalid_response_mime_type",
          title := "Invalid response",
          error_status := "Unable to parse JSON response",
          url := request_url,
          extra := [("status_code", Extra.nat srv.status_code), ("text", Extra.str srv.text)] }
      { result := Sum.inr e, callbackLog := [e], networkCalls := 1 }
    | some parsed_response =>
      if srv.responseSchemaErrors.isEmpty then
        { result := Sum.inl { type := "success", parsed_response := parsed_response },
          callbackLog := [], networkCalls := 1 }
      else
        let e : ErrorMessage :=
          { type := "invalid_response_schema",
            title := "Invalid response schema",
            error_status := "Response content does not meet the OpenAPI Schema requirements",
            url := request_url,
            extra := [("text", Extra.errs srv.responseSchemaErrors),
                      ("parsed_response", Extra.json parsed_response)] }
        { result := Sum.inr e, callbackLog := [e], networkCalls := 1 }

/-- `make_request` (validate/index.py lines 185-225): run
`prepare_request`; if its result's `type` is not `"success"` return it
(no send); otherwise run `file_request`. -/
def make_request (request_url : String) (requestValidatorErrors : List String)
    (srv : ServerBehavior) : RequestRun :=
  match prepare_request request_url requestValidatorErrors with
  | (Sum.inr e, log) => { result := Sum.inr e, callbackLog := log, networkCalls := 0 }
  | (Sum.inl _, log) =>
    let run := file_request request_url srv
    { result := run.result, callbackLog := log ++ run.callbackLog,
      networkCalls := run.networkCalls }

/-- `ParameterData` (constructed in `parse_parameters`,
test/test_endpoint.py lines 63-72; field list also given in spec §3):
`name`, location `in_` (here `loc`), `required`, `examples`,
schema `type`, schema `default`. -/
structure ParameterData where
  name : String
  loc : String
  required : Bool
  examples : List Value
  type : String
  default : Value
  deriving DecidableEq

/-- A raw parameter as read from the schema object: `parameter.name`,
`parameter.in_`, `parameter.required`, the values of
`parameter.examples` (in order; empty list = no `examples` mapping,
i.e. falsy), `parameter.schema.type` and `parameter.schema.default`. -/
structure RawParameter where
  name : String
  in_ : String
  required : Bool
  examples : List Value
  schemaType : String
  schemaDefault : Value
  deriving DecidableEq

/-- The `after_examples_generated` hook:
`(endpoint_name, raw_parameter, examples) -> examples`. -/
abbrev Hook := String → RawParameter → List Value → List Value

/-- One point of Python's global `random` stream, as consumed while
synthesizing one parameter's examples: `randint a b` models
`random.randint(a, b)` and `choice i j` models (the index drawn by) the
`j`-th `random.choice(letters)` call of the `i`-th synthesized token.
Arbitrary functions cover every possible sequence of draws. -/
structure Rng where
  randint : Nat → Nat → Nat
  choice : Nat → Nat → Nat

/-- `string.ascii_letters`. -/
def asciiLetters : List Char :=
  "abcdefghijklmnopqrstuvwxyzABCDEFGHIJKLMNOPQRSTUVWXYZ".data

/-- `string.digits`. -/
def digitChars : List Char := "0123456789".data

/-- The token synthesis of test/test_endpoint.py lines 87-93:
`random.randint(1, length)` tokens, each of 10 characters drawn from
`letters` by `random.choice`.  The drawn index is reduced modulo
`letters.length`, so every modelled draw picks an element of `letters`,
exactly as `random.choice` does. -/
def synthTokens (rng : Rng) (letters : List Char) (length : Nat) : List Value :=
  (List.range (rng.randint 1 length)).map (fun i =>
    Value.vStr (String.mk ((List.range 10).map (fun j =>
      letters.getD (rng.choice i j % letters.length) 'a'))))

/-- Lines 77-93 of test/test_endpoint.py: when the schema supplies no
examples, synthesize them — `letters`/`length` are set for `string`
(ascii letters, 8) and `integer` (digits, 2) and stay `None` otherwise,
in which case the examples are left unchanged. -/
def synthExamples (rng : Rng) (p : RawParameter) (examples : List Value) : List Value :=
  if p.examples.isEmpty then
    if p.schemaType = "string" then synthTokens rng asciiLetters 8
    else if p.schemaType = "integer" then synthTokens rng digitChars 2
    else examples
  else examples

/-- The example list of one parameter right before the optional-omit
step: schema examples (lines 67-69), then synthesis (lines 77-93), then
the unconditional boolean override to `[True, False]` (lines 95-96). -/
def preOmitExamples (rng : Rng) (p : RawParameter) : List Value :=
  if p.schemaType = "boolean" then [Value.vBool true, Value.vBool false]
  else synthExamples rng p p.examples

/-- Lines 98-102 of test/test_endpoint.py: a non-required parameter
whose examples do not contain `""` gains one appended `""` example. -/
def omitExamples (required : Bool) (examples : List Value) : List Value :=
  if required = false ∧ Value.vStr "" ∉ examples then examples ++ [Value.vStr ""]
  else examples

/-- Processing of one declared parameter by `parse_parameters`
(test/test_endpoint.py lines 63-111).  `validate_parameter_data`
(defined in test/utils.py, absent from the sources) only checks the
declaration and does not modify `parameter_data`, so it contributes
nothing here.  With `generateExamples` the stages run in source order:
synthesis, boolean override, optional-omit append, then the
`after_examples_generated` hook (applied to `parameter.raw_element`,
modelled by `p` itself) replaces the list unconditionally. -/
def processParameter (generateExamples : Bool) (rng : Rng) (hook : Option Hook)
    (endpointName : String) (p : RawParameter) : ParameterData :=
  let finalExamples :=
    if generateExamples then
      match hook with
      | some h => h endpointName p (omitExamples p.required (preOmitExamples rng p))
      | none => omitExamples p.required (preOmitExamples rng p)
    else p.examples
  { name := p.name, loc := p.in_, required := p.required,
    examples := finalExamples, type := p.schemaType, default := p.schemaDefault }

/-- The raw element handed to the hook for the synthetic body slot: the
Python code passes the bare dict `{"name": "requestBody"}`; only the
name is meaningful. -/
def requestBodyRaw : RawParameter :=
  { name := "requestBody", in_ := "", required := false, examples := [],
    schemaType := "", schemaDefault := Value.vNone }

/-- `parse_parameters` (test/test_endpoint.py lines 23-113): the
synthetic `requestBody` pseudo-parameter (an `InlineClass` holding only
`name` and `examples := [None, None]`, the latter replaced by the hook
when present; the remaining `ParameterData` fields are fillers never
read for slot 0) followed by the processed declared parameters, path
level first then method level.  `rngs i` is the state of the random
stream when the `i`-th declared parameter is processed. -/
def parse_parameters (endpointName : String) (pathParams methodParams : List RawParameter)
    (generateExamples : Bool) (rngs : Nat → Rng) (hook : Option Hook) : List ParameterData :=
  { name := "requestBody", loc := "", required := false, type := "",
    default := Value.vNone,
    examples :=
      match hook with
      | some h => h endpointName requestBodyRaw [Value.vNone, Value.vNone]
      | none => [Value.vNone, Value.vNone] } ::
  (pathParams ++ methodParams).enum.map
    (fun ip => processParameter generateExamples (rngs ip.1) hook endpointName ip.2)

/-- A request payload, as produced by `create_request_payload`
(test/utils.py, absent from the sources): the body (first slot of the
variation) and the request URL.  `test_endpoint` destructures it as
`body, request_url = payload`. -/
abbrev Payload := Option Value × String

/-- `itertools.product` over a list of example lists, in Python's order
(rightmost factor varies fastest). -/
def cartProd {α : Type} : List (List α) → List (List α)
  | [] => [[]]
  | l :: ls => l.flatMap (fun x => (cartProd ls).map (fun xs => x :: xs))

/-- `parameter_variations` (test/test_endpoint.py lines 186-188): the
cartesian product of every parameter's example list. -/
def parameter_variations_of (parameters : List ParameterData) : List (List Value) :=
  cartProd (parameters.map (fun p => p.examples))

/-- `random.sample(xs, k)` modelled by an index selection: the sampled
list reads `xs` at the positions of `sel`.  A faithful sample is a
`sel` of `k` pairwise-distinct in-range positions (without
replacement), in any order; the theorems take those facts as
hypotheses. -/
def downsample {α : Type} (sel : List Nat) (xs : List α) : List α :=
  sel.filterMap (fun i => xs[i]?)

/-- Lines 204-215 of test/test_endpoint.py: when more than
`max_urls_per_endpoint` payloads exist, `random.sample` keeps
`max_urls_per_endpoint` of the zipped `(payload, variation)` pairs;
unzipping that is the same index selection applied to both lists. -/
def applyCap {α β : Type} (max_urls_per_endpoint : Nat) (sel : List Nat)
    (payloads : List α) (variations : List β) : List α × List β :=
  if payloads.length > max_urls_per_endpoint then
    (downsample sel payloads, downsample sel variations)
  else (payloads, variations)

/-- Outcome of one iteration of the fetching loop of `test_endpoint`
(lines 221-262) for one response: store something into the `responses`
dictionary (or nothing) and continue, return early from
`test_endpoint`, or propagate an exception. -/
inductive LoopStep where
  | store (v : Option Json)
  | earlyReturn
  | raised (msg : String)

/-- The `type` attribute of a value returned by `make_request`. -/
def respType : Sum FiledRequest ErrorMessage → String
  | Sum.inl f => f.type
  | Sum.inr e => e.type

/-- Python `hasattr(response, "parsed_response")`: true exactly for
`FiledRequest` (its declared field), false for `ErrorMessage` (whose
fields are `type`, `title`, `error_status`, `url`, `extra`). -/
def hasParsedResponse : Sum FiledRequest ErrorMessage → Bool
  | Sum.inl _ => true
  | Sum.inr _ => false

/-- Python attribute lookup `response.response`: neither `FiledRequest`
nor `ErrorMessage` declares a field named `response`, so the lookup
fails (`AttributeError`) on every value the loop can receive. -/
def attrResponse : Sum FiledRequest ErrorMessage → Option Json
  | Sum.inl _ => none
  | Sum.inr _ => none

/-- One iteration of the response-handling part of `test_endpoint`
(lines 246-262), for a response whose classification is already known:
if the type is not `"success"` the continue predicate is consulted and
a `false` answer returns from `test_endpoint`; then a type of
`"invalid_request"` raises; then, when the response has a
`parsed_response` attribute, `responses[index] = response.response` is
attempted — an attribute lookup that fails.  No error callback is
invoked anywhere in these lines. -/
def handle_response (shouldContinue : Bool) (resp : Sum FiledRequest ErrorMessage) : LoopStep :=
  if respType resp ≠ "success" ∧ shouldContinue = false then LoopStep.earlyReturn
  else if respType resp = "invalid_request" then LoopStep.raised "invalid_request"
  else if hasParsedResponse resp then
    match attrResponse resp with
    | some v => LoopStep.store (some v)
    | none => LoopStep.raised "AttributeError"
  else LoopStep.store none

/-- A parameter constraint: `(value, endpoint_name, response_body) -> bool`. -/
abbrev Constraint := Value → String → Json → Bool

/-- Filler `ParameterData` for out-of-range list reads (the Python code
would raise `IndexError`; all modelled runs stay in range). -/
def dummyParameterData : ParameterData :=
  { name := "", loc := "", required := false, examples := [], type := "",
    default := Value.vNone }

/-- The `failed_test_constraint` error built at test/test_endpoint.py
lines 288-299.  `responseDump` is `json.dumps(response, ...)` of the
(leaked) last loop variable `response`, kept abstract as a string. -/
def constraintError (endpointName parameterName url responseDump : String) : ErrorMessage :=
  { type := "failed_test_constraint",
    title := "Testing constraint failed",
    error_status := "Constraint on the " ++ endpointName ++ " based "
      ++ "on a parameter " ++ parameterName ++ " failed",
    url := url,
    extra := [("response", Extra.str responseDump)] }

/-- The constraint-checking phase of `test_endpoint` (lines 264-308):
keep the constraints whose key is a declared parameter name; when any
remain, for every retained `(request_index, response_object)` and every
kept constraint, read the parameter's value from the sampled variation
(replacing a `""` slot by the parameter's declared default) and call
the constraint; a `false` verdict builds a `failed_test_constraint`
error whose `url` is `payloads[request_index][1]` and passes it to the
error callback.  The returned list is the ordered callback log. -/
def run_constraints (endpointName : String) (parameters : List ParameterData)
    (parameter_constraints : List (String × Constraint))
    (responses : List (Nat × Json))
    (parameter_variations : List (List Value))
    (payloads : List Payload)
    (responseDump : String) : List ErrorMessage :=
  let parameter_names := parameters.map (fun p => p.name)
  let defined_constraints :=
    parameter_constraints.filter (fun c => decide (c.1 ∈ parameter_names))
  if defined_constraints.isEmpty then []
  else
    responses.flatMap (fun ir =>
      defined_constraints.filterMap (fun c =>
        let pidx := parameter_names.indexOf c.1
        let slotValue := (parameter_variations.getD ir.1 []).getD pidx Value.vNone
        let parameter_value :=
          if slotValue = Value.vStr "" then (parameters.getD pidx dummyParameterData).default
          else slotValue
        if c.2 parameter_value endpointName ir.2 then none
        else some (constraintError endpointName c.1
          (payloads.getD ir.1 (none, "")).2 responseDump)))

/-- Concrete inputs used by witnesses: a parameter list with a
`requestBody` pseudo-slot (2 examples) and one declared parameter with
2 examples, giving 4 variations. -/
def witnessParameters : List ParameterData :=
  [{ name := "requestBody", loc := "", required := false,
     examples := [Value.vNone, Value.vNone], type := "", default := Value.vNone },
   { name := "status", loc := "query", required := true,
     examples := [Value.vStr "open", Value.vStr "closed"], type := "string",
     default := Value.vNone }]

/-- A concrete payload assembler standing for `create_request_payload`
in witnesses: body = first slot, URL distinguishes the variation. -/
def witnessAssemble (variation : List Value) : Payload :=
  (variation.head?, String.mk (variation.flatMap (fun v =>
    match v with
    | Value.vNone => ['n']
    | Value.vBool b => if b then ['t'] else ['f']
    | Value.vStr s => s.data
    | Value.vInt _ => ['i'])))

/-- A server behaviour that answers 200 with a parseable, schema-valid
JSON body. -/
def okServer : ServerBehavior :=
  { status_code := 200, text := "[]", parsedJson := some (Json.arr []),
    responseSchemaErrors := [] }

/-- An `ErrorMessage` whose classification is `invalid_request` (the
tag tested at test/test_endpoint.py line 258). -/
def invalidRequestMessage : ErrorMessage :=
  { type := "invalid_request", title := "t", error_status := "s",
    url := "http://example.com/x", extra := [] }

/-- A deterministic instance of the random stream (every `randint a b`
answers `a`, every `choice` picks index 0), used by witnesses. -/
def rngLow : Rng := { randint := fun a _ => a, choice := fun _ _ => 0 }

/-- An optional boolean parameter with no schema examples. -/
def optionalBoolParameter : RawParameter :=
  { name := "flag", in_ := "query", required := false, examples := [],
    schemaType := "boolean", schemaDefault := Value.vNone }

/-- A required boolean parameter carrying a schema-declared example. -/
def requiredBoolParameter : RawParameter :=
  { name := "strict", in_ := "query", required := true,
    examples := [Value.vStr "stale"], schemaType := "boolean",
    schemaDefault := Value.vNone }

/-- An optional string parameter with schema-declared examples and no
empty-string example. -/
def optionalStringParameter : RawParameter :=
  { name := "q", in_ := "query", required := false,
    examples := [Value.vStr "cat", Value.vStr "dog"], schemaType := "string",
    schemaDefault := Value.vNone }

/-- A required integer parameter with no schema examples (the
pets-by-id scenario of spec §8). -/
def requiredIntParameter : RawParameter :=
  { name := "id", in_ := "path", required := true, examples := [],
    schemaType := "integer", schemaDefault := Value.vNone }

/-- A constraint demanding the response repeat the parameter value
under the `status` key, used by the C6 witness; it answers `false` on
the witness response below. -/
def statusConstraint : Constraint := fun v _ r =>
  match v, r with
  | Value.vStr s, Json.obj [(k, Json.str w)] => decide (k = "status" ∧ s = w)
  | _, _ => false

/-- The retained response of the C6 witness: `{"status": "closed"}`. -/
def witnessResponse : Json := Json.obj [("status", Json.str "closed")]

theorem cartProd_length {α : Type} (ls : List (List α)) :
    (cartProd ls).length = (ls.map List.length).prod := by
  induction ls with
  | nil => rfl
  | cons l ls ih =>
    simp only [cartProd, List.length_flatMap, Function.comp_def, List.length_map,
      List.map_const', List.sum_replicate, smul_eq_mul, ih, List.map_cons,
      List.prod_cons]

theorem variations_length (parameters : List ParameterData) :
    (parameter_variations_of parameters).length
      = (parameters.map (fun p => p.examples.length)).prod := by
  simp [parameter_variations_of, cartProd_length, List.map_map, Function.comp_def]

theorem downsample_length {α : Type} (sel : List Nat) (xs : List α)
    (h : ∀ i ∈ sel, i < xs.length) : (downsample sel xs).length = sel.length := by
  induction sel with
  | nil => rfl
  | cons i sel ih =>
    have hi : i < xs.length := h i (by simp)
    simp only [downsample, List.filterMap_cons, List.getElem?_eq_getElem hi,
      List.length_cons]
    have := ih (fun j hj => h j (by simp [hj]))
    simp only [downsample] at this
    simp [this]

theorem downsample_map {α β : Type} (f : α → β) (sel : List Nat) (xs : List α) :
    downsample sel (xs.map f) = (downsample sel xs).map f := by
  induction sel with
  | nil => rfl
  | cons i sel ih =>
    simp only [downsample, List.filterMap_cons, List.getElem?_map] at ih ⊢
    cases h : xs[i]? with
    | none => simp [h, ih]
    | some a => simp [h, ih]

theorem downsample_mem {α : Type} {sel : List Nat} {xs : List α} {q : α}
    (h : q ∈ downsample sel xs) : q ∈ xs := by
  simp only [downsample, List.mem_filterMap] at h
  obtain ⟨i, _, hi⟩ := h
  exact List.getElem?_mem hi

/-- Claim C1: the generated payload count equals the product of the
example-list lengths; when that count exceeds `max_urls_per_endpoint`,
the `random.sample` step (modelled by any selection `sel` of that many
pairwise-distinct in-range positions — drawing without replacement)
leaves exactly `max_urls_per_endpoint` payloads, each taken from the
full payload set and still the assembly of the variation kept at the
same position. -/
theorem c1_payload_generation_and_sampling
    (parameters : List ParameterData) (assemble : List Value → Payload)
    (max_urls_per_endpoint : Nat) (sel : List Nat) (payloads : List Payload)
    (hpayloads : payloads = (parameter_variations_of parameters).map assemble)
    (hcap : payloads.length > max_urls_per_endpoint)
    (hsel_len : sel.length = max_urls_per_endpoint)
    (_hsel_nodup : sel.Nodup)
    (hsel_bound : ∀ i ∈ sel, i < payloads.length) :
    payloads.length = (parameters.map (fun p => p.examples.length)).prod ∧
    (applyCap max_urls_per_endpoint sel payloads
        (parameter_variations_of parameters)).1.length = max_urls_per_endpoint ∧
    (applyCap max_urls_per_endpoint sel payloads
        (parameter_variations_of parameters)).1
      = ((applyCap max_urls_per_endpoint sel payloads
          (parameter_variations_of parameters)).2).map assemble ∧
    ∀ q ∈ (applyCap max_urls_per_endpoint sel payloads
        (parameter_variations_of parameters)).1, q ∈ payloads := by
  have hlen : payloads.length = (parameters.map (fun p => p.examples.length)).prod := by
    rw [hpayloads, List.length_map, variations_length]
  refine ⟨hlen, ?_, ?_, ?_⟩
  · simp only [applyCap, if_pos hcap]
    rw [downsample_length sel payloads hsel_bound, hsel_len]
  · simp only [applyCap, if_pos hcap]
    rw [hpayloads, downsample_map]
  · intro q hq
    simp only [applyCap, if_pos hcap] at hq
    exact downsample_mem hq

/-- Witness for C1 at a concrete instance: 2×2 = 4 payloads, capped to
2 by selecting positions 0 and 2. -/
theorem c1_payload_generation_and_sampling_witness :
    ((parameter_variations_of witnessParameters).map witnessAssemble).length
        = (witnessParameters.map (fun p => p.examples.length)).prod ∧
    (applyCap 2 [0, 2] ((parameter_variations_of witnessParameters).map witnessAssemble)
        (parameter_variations_of witnessParameters)).1.length = 2 ∧
    (applyCap 2 [0, 2] ((parameter_variations_of witnessParameters).map witnessAssemble)
        (parameter_variations_of witnessParameters)).1
      = ((applyCap 2 [0, 2] ((parameter_variations_of witnessParameters).map witnessAssemble)
          (parameter_variations_of witnessParameters)).2).map witnessAssemble ∧
    ∀ q ∈ (applyCap 2 [0, 2] ((parameter_variations_of witnessParameters).map witnessAssemble)
        (parameter_variations_of witnessParameters)).1,
      q ∈ (parameter_variations_of witnessParameters).map witnessAssemble :=
  c1_payload_generation_and_sampling witnessParameters witnessAssemble 2 [0, 2]
    ((parameter_variations_of witnessParameters).map witnessAssemble)
    rfl (by decide) (by decide) (by decide) (by decide)

/-- Claim C10: with no `after_examples_generated` hook, slot 0 of the
parsed parameter list is the synthetic `requestBody` pseudo-parameter
with example list `[None, None]`, so the variation (payload) count is
twice the product of the declared parameters' example-list lengths. -/
theorem c10_request_body_pseudo_parameter
    (endpointName : String) (pathParams methodParams : List RawParameter)
    (rngs : Nat → Rng) :
    (parse_parameters endpointName pathParams methodParams true rngs none).head?.map
        (fun p => p.name) = some "requestBody" ∧
    (parse_parameters endpointName pathParams methodParams true rngs none).head?.map
        (fun p => p.examples) = some [Value.vNone, Value.vNone] ∧
    (parameter_variations_of
        (parse_parameters endpointName pathParams methodParams true rngs none)).length
      = 2 * ((parse_parameters endpointName pathParams methodParams true rngs
          none).tail.map (fun p => p.examples.length)).prod := by
  refine ⟨rfl, rfl, ?_⟩
  rw [variations_length]
  simp [parse_parameters]

/-- Claim C2: when the request URL fails OpenAPI request validation,
`make_request` returns an `invalid_request_url` error for that URL,
the error callback is invoked exactly once (with that error), and the
network layer is never reached (`session.send` count is zero). -/
theorem c2_invalid_request_url_no_network
    (request_url : String) (requestValidatorErrors : List String)
    (srv : ServerBehavior) (h : requestValidatorErrors ≠ []) :
    ∃ e : ErrorMessage,
      make_request request_url requestValidatorErrors srv =
        { result := Sum.inr e, callbackLog := [e], networkCalls := 0 } ∧
      e.type = "invalid_request_url" ∧ e.url = request_url := by
  have hne : requestValidatorErrors.isEmpty = false := by
    cases requestValidatorErrors with
    | nil => exact absurd rfl h
    | cons a l => rfl
  refine ⟨{ type := "invalid_request_url", title := "Invalid Request URL",
            error_status := "Request URL does not meet the OpenAPI Schema requirements",
            url := request_url,
            extra := [("text", Extra.errs requestValidatorErrors)] }, ?_, rfl, rfl⟩
  simp [make_request, prepare_request, hne]

/-- Witness for C2: one validator error, a healthy server; no send
happens and the `invalid_request_url` error is both returned and the
sole callback invocation. -/
theorem c2_invalid_request_url_no_network_witness :
    ∃ e : ErrorMessage,
      make_request "http://example.com/pets" ["required parameter missing"] okServer =
        { result := Sum.inr e, callbackLog := [e], networkCalls := 0 } ∧
      e.type = "invalid_request_url" ∧ e.url = "http://example.com/pets" :=
  c2_invalid_request_url_no_network "http://example.com/pets"
    ["required parameter missing"] okServer (by decide)

/-- Claim C4: `file_request` classifies a sent request's outcome —
non-200 status gives exactly `invalid_response_code`, a 200 response
with an unparsable body gives exactly `invalid_response_mime_type`, a
200 JSON response failing the response schema gives exactly
`invalid_response_schema` with the parsed body preserved in `extra`;
each case invokes the error callback exactly once (the log is exactly
that one error) and returns the error instead of throwing. -/
theorem c4_response_classification (request_url : String) (srv : ServerBehavior) :
    (srv.status_code ≠ 200 →
      ∃ e : ErrorMessage,
        file_request request_url srv =
          { result := Sum.inr e, callbackLog := [e], networkCalls := 1 } ∧
        e.type = "invalid_response_code" ∧ e.url = request_url) ∧
    (srv.status_code = 200 → srv.parsedJson = none →
      ∃ e : ErrorMessage,
        file_request request_url srv =
          { result := Sum.inr e, callbackLog := [e], networkCalls := 1 } ∧
        e.type = "invalid_response_mime_type" ∧ e.url = request_url) ∧
    (∀ j : Json, srv.status_code = 200 → srv.parsedJson = some j →
      srv.responseSchemaErrors ≠ [] →
      ∃ e : ErrorMessage,
        file_request request_url srv =
          { result := Sum.inr e, callbackLog := [e], networkCalls := 1 } ∧
        e.type = "invalid_response_schema" ∧ e.url = request_url ∧
        ("parsed_response", Extra.json j) ∈ e.extra) := by
  refine ⟨?_, ?_, ?_⟩
  · intro hcode
    refine ⟨{ type := "invalid_response_code", title := "Invalid Response",
              error_status := "Response status code indicates an error has occurred",
              url := request_url,
              extra := [("status_code", Extra.nat srv.status_code),
                        ("text", Extra.str srv.text)] }, ?_, rfl, rfl⟩
    simp [file_request, hcode]
  · intro hcode hjson
    refine ⟨{ type := "invalid_response_mime_type", title := "Invalid response",
              error_status := "Unable to parse JSON response",
              url := request_url,
              extra := [("status_code", Extra.nat srv.status_code),
                        ("text", Extra.str srv.text)] }, ?_, rfl, rfl⟩
    simp [file_request, hcode, hjson]
  · intro j hcode hjson herr
    have hne : srv.responseSchemaErrors.isEmpty = false := by
      cases hh : srv.responseSchemaErrors with
      | nil => exact absurd hh herr
      | cons a l => rfl
    refine ⟨{ type := "invalid_response_schema", title := "Invalid response schema",
              error_status := "Response content does not meet the OpenAPI Schema requirements",
              url := request_url,
              extra := [("text", Extra.errs srv.responseSchemaErrors),
                        ("parsed_response", Extra.json j)] }, ?_, rfl, rfl, by simp⟩
    simp [file_request, hcode, hjson, hne]

/-- Witness for C4: the three classification cases evaluated at
concrete server behaviours. -/
theorem c4_response_classification_witness :
    (∃ e : ErrorMessage,
      file_request "http://example.com/a"
          { status_code := 404, text := "gone", parsedJson := none,
            responseSchemaErrors := [] } =
        { result := Sum.inr e, callbackLog := [e], networkCalls := 1 } ∧
      e.type = "invalid_response_code" ∧ e.url = "http://example.com/a") ∧
    (∃ e : ErrorMessage,
      file_request "http://example.com/b"
          { status_code := 200, text := "<html>", parsedJson := none,
            responseSchemaErrors := [] } =
        { result := Sum.inr e, callbackLog := [e], networkCalls := 1 } ∧
      e.type = "invalid_response_mime_type" ∧ e.url = "http://example.com/b") ∧
    (∃ e : ErrorMessage,
      file_request "http://example.com/c"
          { status_code := 200, text := "7", parsedJson := some (Json.num 7),
            responseSchemaErrors := ["expected object"] } =
        { result := Sum.inr e, callbackLog := [e], networkCalls := 1 } ∧
      e.type = "invalid_response_schema" ∧ e.url = "http://example.com/c" ∧
      ("parsed_response", Extra.json (Json.num 7)) ∈ e.extra) :=
  ⟨(c4_response_classification "http://example.com/a"
      { status_code := 404, text := "gone", parsedJson := none,
        responseSchemaErrors := [] }).1 (by decide),
   (c4_response_classification "http://example.com/b"
      { status_code := 200, text := "<html>", parsedJson := none,
        responseSchemaErrors := [] }).2.1 rfl rfl,
   (c4_response_classification "http://example.com/c"
      { status_code := 200, text := "7", parsedJson := some (Json.num 7),
        responseSchemaErrors := ["expected object"] }).2.2 (Json.num 7) rfl rfl
      (by decide)⟩

/-- Counterexample to claim C3 as stated: with classification
`invalid_request` and a continue predicate answering `false`, the
fetching loop of `test_endpoint` returns early (the predicate check at
lines 255-256 runs before the raise at lines 258-259), so the abort is
not a raise and does depend on the predicate. -/
theorem c3_counterexample :
    handle_response false (Sum.inr invalidRequestMessage) = LoopStep.earlyReturn ∧
    handle_response false (Sum.inr invalidRequestMessage)
      ≠ LoopStep.raised "invalid_request" := by
  refine ⟨rfl, ?_⟩
  intro h
  exact LoopStep.noConfusion h

/-- Claim C3 (amended): on a response classified `invalid_request` the
orchestrator first consults `should_continue_on_fail`; if it answers
`true` the orchestrator raises, and if it answers `false` the endpoint
test stops by returning normally; in neither case do these lines invoke
the error callback (`handle_response` produces no `ErrorMessage`). -/
theorem c3_invalid_request_abort (e : ErrorMessage)
    (h : e.type = "invalid_request") :
    handle_response true (Sum.inr e) = LoopStep.raised "invalid_request" ∧
    handle_response false (Sum.inr e) = LoopStep.earlyReturn := by
  constructor
  · simp [handle_response, respType, h]
  · simp [handle_response, respType, h]

/-- Witness for the amended C3 at the concrete `invalid_request`
message. -/
theorem c3_invalid_request_abort_witness :
    handle_response true (Sum.inr invalidRequestMessage)
      = LoopStep.raised "invalid_request" ∧
    handle_response false (Sum.inr invalidRequestMessage)
      = LoopStep.earlyReturn :=
  c3_invalid_request_abort invalidRequestMessage rfl

/-- Claim C5 evaluated on the code: a successful request — here the
very value `make_request` produces for a 200, JSON, schema-valid
response — makes the fetching loop raise (`responses[index] =
response.response` reads an attribute `FiledRequest` does not have)
instead of retaining the parsed body; an error response, lacking a
`parsed_response` attribute, is still skipped silently. -/
theorem c5_success_response_storage_crashes :
    (make_request "http://example.com/pets" [] okServer).result
      = Sum.inl { type := "success", parsed_response := Json.arr [] } ∧
    handle_response true
        (Sum.inl { type := "success", parsed_response := Json.arr [] })
      = LoopStep.raised "AttributeError" ∧
    handle_response false
        (Sum.inl { type := "success", parsed_response := Json.arr [] })
      = LoopStep.raised "AttributeError" ∧
    handle_response true (Sum.inr invalidRequestMessage) ≠ LoopStep.store none ∧
    handle_response true
        (Sum.inr { type := "invalid_response_code", title := "t",
                   error_status := "s", url := "u", extra := [] })
      = LoopStep.store none := by
  exact ⟨rfl, rfl, rfl, fun h => LoopStep.noConfusion h, rfl⟩

theorem synthTokens_spec (rng : Rng) (letters : List Char) (length : Nat)
    (hl : letters ≠ []) (h1 : 1 ≤ rng.randint 1 length)
    (h2 : rng.randint 1 length ≤ length) :
    1 ≤ (synthTokens rng letters length).length ∧
    (synthTokens rng letters length).length ≤ length ∧
    ∀ v ∈ synthTokens rng letters length, ∃ s : String,
      v = Value.vStr s ∧ s.length = 10 ∧ ∀ c ∈ s.data, c ∈ letters := by
  refine ⟨by simpa [synthTokens] using h1, by simpa [synthTokens] using h2, ?_⟩
  intro v hv
  simp only [synthTokens, List.mem_map, List.mem_range] at hv
  obtain ⟨i, _, rfl⟩ := hv
  refine ⟨_, rfl, rfl, ?_⟩
  intro c hc
  have hc' : c ∈ (List.range 10).map (fun j =>
      letters.getD (rng.choice i j % letters.length) 'a') := hc
  simp only [List.mem_map, List.mem_range] at hc'
  obtain ⟨j, _, rfl⟩ := hc'
  have hlt : rng.choice i j % letters.length < letters.length :=
    Nat.mod_lt _ (List.length_pos.mpr hl)
  rw [List.getD_eq_getElem letters 'a' hlt]
  exact List.getElem_mem hlt

/-- Counterexample to claim C7 as stated: an optional boolean-typed
parameter ends with THREE examples — the omit step of lines 98-102
appends the empty-string sentinel after the boolean override — so the
final example list is not exactly the pair of booleans. -/
theorem c7_counterexample :
    (processParameter true rngLow none "endpoint" optionalBoolParameter).examples
      = [Value.vBool true, Value.vBool false, Value.vStr ""] ∧
    (processParameter true rngLow none "endpoint" optionalBoolParameter).examples
      ≠ [Value.vBool true, Value.vBool false] := by
  exact ⟨by decide, by decide⟩

/-- Claim C7 (amended): for a required boolean-typed parameter
processed with example generation enabled and no
`after_examples_generated` hook, the resulting example list is exactly
`[true, false]`, replacing any schema-declared or synthesized examples;
an optional boolean additionally gains the appended empty-string omit
example. -/
theorem c7_boolean_override (endpointName : String) (p : RawParameter) (rng : Rng)
    (hb : p.schemaType = "boolean") (hreq : p.required = true) :
    (processParameter true rng none endpointName p).examples
      = [Value.vBool true, Value.vBool false] := by
  simp [processParameter, preOmitExamples, omitExamples, hb, hreq]

/-- Witness for the amended C7: a required boolean parameter whose
schema-declared example is discarded in favour of `[true, false]`. -/
theorem c7_boolean_override_witness :
    requiredBoolParameter.schemaType = "boolean" ∧
    requiredBoolParameter.required = true ∧
    (processParameter true rngLow none "endpoint" requiredBoolParameter).examples
      = [Value.vBool true, Value.vBool false] :=
  ⟨rfl, rfl, c7_boolean_override "endpoint" requiredBoolParameter rngLow rfl rfl⟩

/-- Claim C8: with example generation enabled and no hook, an optional
parameter whose pre-omit example list lacks `""` gains exactly one
appended `""` example; one that already has `""` is left unchanged; a
required parameter never gains one. -/
theorem c8_optional_omit_example (endpointName : String) (p : RawParameter)
    (rng : Rng) :
    (p.required = false → Value.vStr "" ∉ preOmitExamples rng p →
      (processParameter true rng none endpointName p).examples
        = preOmitExamples rng p ++ [Value.vStr ""]) ∧
    (p.required = false → Value.vStr "" ∈ preOmitExamples rng p →
      (processParameter true rng none endpointName p).examples
        = preOmitExamples rng p) ∧
    (p.required = true →
      (processParameter true rng none endpointName p).examples
        = preOmitExamples rng p) := by
  refine ⟨fun hreq hni => ?_, fun hreq hi => ?_, fun hreq => ?_⟩
  · simp [processParameter, omitExamples, hreq, hni]
  · simp [processParameter, omitExamples, hreq, hi]
  · simp [processParameter, omitExamples, hreq]

/-- Witness for C8: an optional string parameter gains exactly the one
appended `""`; a required parameter's list is unchanged. -/
theorem c8_optional_omit_example_witness :
    optionalStringParameter.required = false ∧
    Value.vStr "" ∉ preOmitExamples rngLow optionalStringParameter ∧
    (processParameter true rngLow none "endpoint" optionalStringParameter).examples
      = preOmitExamples rngLow optionalStringParameter ++ [Value.vStr ""] ∧
    requiredIntParameter.required = true ∧
    (processParameter true rngLow none "endpoint" requiredIntParameter).examples
      = preOmitExamples rngLow requiredIntParameter :=
  ⟨rfl, by decide,
   (c8_optional_omit_example "endpoint" optionalStringParameter rngLow).1 rfl (by decide),
   rfl,
   (c8_optional_omit_example "endpoint" requiredIntParameter rngLow).2.2 rfl⟩

/-- Claim C9: with no schema-supplied examples and example generation
enabled, a string-typed parameter gets 1-8 synthesized examples, each a
10-character string over the ascii letters; an integer-typed parameter
gets 1-2 examples, each a 10-character digit string; and a required
integer parameter ends with exactly those synthesized examples and no
appended omit example.  The `randint` bounds are the contract of
`random.randint`. -/
theorem c9_example_synthesis (endpointName : String) (p : RawParameter) (rng : Rng)
    (hex : p.examples = [])
    (hr8 : 1 ≤ rng.randint 1 8 ∧ rng.randint 1 8 ≤ 8)
    (hr2 : 1 ≤ rng.randint 1 2 ∧ rng.randint 1 2 ≤ 2) :
    (p.schemaType = "string" →
      1 ≤ (synthExamples rng p p.examples).length ∧
      (synthExamples rng p p.examples).length ≤ 8 ∧
      ∀ v ∈ synthExamples rng p p.examples, ∃ s : String,
        v = Value.vStr s ∧ s.length = 10 ∧ ∀ c ∈ s.data, c ∈ asciiLetters) ∧
    (p.schemaType = "integer" →
      1 ≤ (synthExamples rng p p.examples).length ∧
      (synthExamples rng p p.examples).length ≤ 2 ∧
      ∀ v ∈ synthExamples rng p p.examples, ∃ s : String,
        v = Value.vStr s ∧ s.length = 10 ∧ ∀ c ∈ s.data, c ∈ digitChars) ∧
    (p.schemaType = "integer" → p.required = true →
      (processParameter true rng none endpointName p).examples
        = synthExamples rng p p.examples ∧
      Value.vStr "" ∉ (processParameter true rng none endpointName p).examples) := by
  refine ⟨fun hstr => ?_, fun hint => ?_, fun hint hreq => ?_⟩
  · have hs : synthExamples rng p p.examples = synthTokens rng asciiLetters 8 := by
      simp [synthExamples, hex, hstr]
    rw [hs]
    exact synthTokens_spec rng asciiLetters 8 (by decide) hr8.1 hr8.2
  · have hs : synthExamples rng p p.examples = synthTokens rng digitChars 2 := by
      simp [synthExamples, hex, hint]
    rw [hs]
    exact synthTokens_spec rng digitChars 2 (by decide) hr2.1 hr2.2
  · have hs : synthExamples rng p p.examples = synthTokens rng digitChars 2 := by
      simp [synthExamples, hex, hint]
    have hpre : preOmitExamples rng p = synthExamples rng p p.examples := by
      simp [preOmitExamples, hint]
    have hfinal : (processParameter true rng none endpointName p).examples
        = synthExamples rng p p.examples := by
      simp [processParameter, omitExamples, hreq, hpre]
    refine ⟨hfinal, ?_⟩
    rw [hfinal, hs]
    intro hmem
    obtain ⟨s, hvs, hlen, _⟩ :=
      (synthTokens_spec rng digitChars 2 (by decide) hr2.1 hr2.2).2.2 _ hmem
    cases hvs
    exact absurd hlen (by decide)

/-- Witness for C9 at the required integer parameter `id` with the
deterministic random stream: one all-digit 10-character example and no
omit example. -/
theorem c9_example_synthesis_witness :
    requiredIntParameter.examples = [] ∧
    (1 ≤ (synthExamples rngLow requiredIntParameter requiredIntParameter.examples).length ∧
     (synthExamples rngLow requiredIntParameter requiredIntParameter.examples).length ≤ 2 ∧
     ∀ v ∈ synthExamples rngLow requiredIntParameter requiredIntParameter.examples,
       ∃ s : String, v = Value.vStr s ∧ s.length = 10 ∧ ∀ c ∈ s.data, c ∈ digitChars) ∧
    (processParameter true rngLow none "endpoint" requiredIntParameter).examples
      = synthExamples rngLow requiredIntParameter requiredIntParameter.examples ∧
    Value.vStr "" ∉ (processParameter true rngLow none "endpoint"
      requiredIntParameter).examples :=
  ⟨rfl,
   (c9_example_synthesis "endpoint" requiredIntParameter rngLow rfl
      (by decide) (by decide)).2.1 rfl,
   (c9_example_synthesis "endpoint" requiredIntParameter rngLow rfl
      (by decide) (by decide)).2.2 rfl rfl⟩

theorem filterMap_singleton {α β : Type} (f : α → Option β) (a : α) :
    List.filterMap f [a] = (f a).toList := by
  cases h : f a <;> simp [List.filterMap_cons, h]

theorem toList_ite {β : Type} (C : Prop) [inst : Decidable C] (b : β) :
    (if C then none else some b).toList = if C then [] else [b] := by
  split <;> rfl

/-- Claim C6: with a registered constraint keyed by a declared
parameter name, the constraint phase evaluates the constraint for every
retained response at the response's parameter value from its sampled
variation (substituting the parameter's declared default when the slot
is the `""` sentinel), the endpoint name and the response body; every
`false` verdict contributes exactly one `failed_test_constraint` error
whose `url` is the originating request's URL, reported through the
callback log, and every retained response is processed (a failure does
not stop the phase). -/
theorem c6_constraint_checking
    (endpointName pname dump : String) (cf : Constraint)
    (parameters : List ParameterData) (responses : List (Nat × Json))
    (variations : List (List Value)) (payloads : List Payload)
    (hname : pname ∈ parameters.map (fun p => p.name)) :
    run_constraints endpointName parameters [(pname, cf)] responses variations
        payloads dump =
      responses.flatMap (fun ir =>
        let pidx := (parameters.map (fun p => p.name)).indexOf pname
        let slotValue := (variations.getD ir.1 []).getD pidx Value.vNone
        let v := if slotValue = Value.vStr "" then
            (parameters.getD pidx dummyParameterData).default else slotValue
        if cf v endpointName ir.2 then []
        else [constraintError endpointName pname
          (payloads.getD ir.1 (none, "")).2 dump]) ∧
    ∀ e ∈ run_constraints endpointName parameters [(pname, cf)] responses
        variations payloads dump,
      e.type = "failed_test_constraint" ∧
      ∃ ir ∈ responses, e.url = (payloads.getD ir.1 (none, "")).2 := by
  have hfilter : [(pname, cf)].filter
      (fun c => decide (c.1 ∈ parameters.map (fun p => p.name))) = [(pname, cf)] := by
    simp [List.filter, hname]
  have hmain : run_constraints endpointName parameters [(pname, cf)] responses
      variations payloads dump =
    responses.flatMap (fun ir =>
      let pidx := (parameters.map (fun p => p.name)).indexOf pname
      let slotValue := (variations.getD ir.1 []).getD pidx Value.vNone
      let v := if slotValue = Value.vStr "" then
          (parameters.getD pidx dummyParameterData).default else slotValue
      if cf v endpointName ir.2 then []
      else [constraintError endpointName pname
        (payloads.getD ir.1 (none, "")).2 dump]) := by
    simp only [run_constraints, hfilter, List.isEmpty_cons, Bool.false_eq_true,
      if_false]
    congr 1
    funext ir
    simp only [filterMap_singleton, toList_ite, List.getD]
  refine ⟨hmain, ?_⟩
  intro e he
  rw [hmain] at he
  rw [List.mem_flatMap] at he
  obtain ⟨ir, hir, hin⟩ := he
  dsimp only at hin
  split at hin <;> split at hin <;>
    first
      | exact absurd hin (List.not_mem_nil e)
      | (rw [List.mem_singleton] at hin; subst hin; exact ⟨rfl, ir, hir, rfl⟩)

/-- Witness for C6: the `status` constraint fails on the retained
response, producing exactly one `failed_test_constraint` error whose
URL is the originating payload's URL. -/
theorem c6_constraint_checking_witness :
    "status" ∈ witnessParameters.map (fun p => p.name) ∧
    run_constraints "/pets" witnessParameters [("status", statusConstraint)]
        [(0, witnessResponse)] [[Value.vNone, Value.vStr "open"]]
        [(none, "http://api/pets?status=open")] "dump" =
      [constraintError "/pets" "status" "http://api/pets?status=open" "dump"] ∧
    ∀ e ∈ run_constraints "/pets" witnessParameters [("status", statusConstraint)]
        [(0, witnessResponse)] [[Value.vNone, Value.vStr "open"]]
        [(none, "http://api/pets?status=open")] "dump",
      e.type = "failed_test_constraint" ∧
      ∃ ir ∈ [(0, witnessResponse)],
        e.url = ([((none : Option Value), "http://api/pets?status=open")].getD
          ir.1 (none, "")).2 := by
  have h := c6_constraint_checking "/pets" "status" "dump" statusConstraint
    witnessParameters [(0, witnessResponse)] [[Value.vNone, Value.vStr "open"]]
    [(none, "http://api/pets?status=open")] (by decide)
  refine ⟨by decide, ?_, h.2⟩
  rw [h.1]
  rfl
